import Mathlib

/-!
# Verification of the BiSeNetv1 model definition (`src/models/bisenetv1.py`)

A shallow embedding of the BiSeNetv1 semantic-segmentation network and of its
construction-time dispatch logic, together with proofs of the spec's claims.

The development has three layers:

* a model of the construction-time string dispatch of `ContextPath.__init__`
  and `ResNet.__init__` (which backbone strings are accepted, which exception
  is raised otherwise);
* a shape-level model of every module's forward pass, mapping `(N, C, H, W)`
  shapes through the network with explicit `Option` failure on any shape
  mismatch, following PyTorch's output-size formulas;
* a value-level model of tensors as `Fin`-indexed rational-valued functions,
  with the learned convolutions kept as abstract parameters where only the
  wiring matters and made concrete (1x1 convolution, global average pooling,
  channel concatenation, broadcasting) where the claims are about them.
-/

/-! ## Python `in` on strings -/

/-- `listStartsWith ns hs` is true iff `ns` is a prefix of `hs`. -/
def listStartsWith : List Char → List Char → Bool
  | [], _ => true
  | _ :: _, [] => false
  | a :: as, b :: bs => a == b && listStartsWith as bs

/-- `listHasSub ns hs` is true iff `ns` occurs contiguously inside `hs`. -/
def listHasSub (needle : List Char) : List Char → Bool
  | [] => listStartsWith needle []
  | c :: rest => listStartsWith needle (c :: rest) || listHasSub needle rest

/-- Python's `needle in hay` on strings: contiguous substring test. -/
def pyIn (needle hay : String) : Bool := listHasSub needle.data hay.data

theorem listStartsWith_append (a b : List Char) :
    listStartsWith a (a ++ b) = true := by
  induction a with
  | nil => rfl
  | cons c cs ih => simp [listStartsWith, ih]

theorem listHasSub_append (pre n post : List Char) :
    listHasSub n (pre ++ (n ++ post)) = true := by
  induction pre with
  | nil =>
    cases n with
    | nil => cases post <;> simp [listHasSub, listStartsWith]
    | cons c cs =>
      have h := listStartsWith_append (c :: cs) post
      simp only [List.cons_append] at h
      simp [listHasSub, h]
  | cons p ps ih => simp [listHasSub, ih]

theorem string_data_append (a b : String) : (a ++ b).data = a.data ++ b.data := by
  cases a; cases b; rfl

/-- A string occurs inside any string built around it by concatenation. -/
theorem pyIn_of_surround (pre s post : String) :
    pyIn s (pre ++ s ++ post) = true := by
  unfold pyIn
  rw [string_data_append, string_data_append, List.append_assoc]
  exact listHasSub_append pre.data s.data post.data

/-! ## Construction-time dispatch (`BiSeNetv1.__init__` and submodules) -/

/-- The Python exceptions that model construction can raise. -/
inductive PyError where
  | valueError (msg : String)
  | notImplementedError
  deriving DecidableEq, Repr

/-- The keys of `resnet_hub` in `ResNet.__init__`: the five supported
torchvision ResNet variants. -/
def resnet_hub : List String :=
  ["resnet18", "resnet34", "resnet50", "resnet101", "resnet152"]

/-- `ResNet.__init__`: raises `ValueError(f'Unsupported ResNet type:
{resnet_type}.\n')` when the requested variant is not in `resnet_hub`;
otherwise loads the pretrained network (a side effect outside this model). -/
def ResNet.init (resnet_type : String) : Except PyError Unit :=
  if resnet_type ∈ resnet_hub then Except.ok ()
  else Except.error (PyError.valueError ("Unsupported ResNet type: " ++ resnet_type ++ ".\n"))

/-- The backbone channel pair chosen by `ContextPath.__init__`:
`[256, 512]` if the backbone name contains `"18"` or `"34"`, else
`[1024, 2048]` (source line 48). -/
def lookupChannels (backbone_type : String) : ℕ × ℕ :=
  if pyIn "18" backbone_type || pyIn "34" backbone_type then (256, 512) else (1024, 2048)

/-- `ContextPath.__init__`: builds the ResNet backbone when the backbone name
contains `"resnet"` (propagating its `ValueError`), then selects the channel
pair; raises `NotImplementedError` for any other backbone family. -/
def ContextPath.init (backbone_type : String) : Except PyError (ℕ × ℕ) :=
  if pyIn "resnet" backbone_type then do
    ResNet.init backbone_type
    pure (lookupChannels backbone_type)
  else Except.error PyError.notImplementedError

/-- `BiSeNetv1.__init__`: of the four submodules only `ContextPath` can fail,
so model construction succeeds or fails exactly as `ContextPath.init` does.
On success it reports the backbone channel pair that was selected. -/
def BiSeNetv1.init (backbone_type : String) : Except PyError (ℕ × ℕ) :=
  ContextPath.init backbone_type

/-! ## Claims C2 and C3: construction-time errors -/

/-- **C2.** Any backbone string containing `"resnet"` that is not one of the
five enumerated variants makes model construction fail with a `ValueError`
whose message names the offending string (so no forward pass can happen). -/
theorem resnet_unknown_variant_value_error (s : String)
    (hres : pyIn "resnet" s = true) (hhub : s ∉ resnet_hub) :
    BiSeNetv1.init s =
      Except.error (PyError.valueError ("Unsupported ResNet type: " ++ s ++ ".\n")) ∧
    pyIn s ("Unsupported ResNet type: " ++ s ++ ".\n") = true := by
  constructor
  · unfold BiSeNetv1.init ContextPath.init ResNet.init
    rw [hres, if_neg hhub]
    rfl
  · exact pyIn_of_surround "Unsupported ResNet type: " s ".\n"

/-- Witness for C2 at the concrete string `"resnet9"`. -/
theorem resnet_unknown_variant_value_error_witness :
    BiSeNetv1.init "resnet9" =
      Except.error (PyError.valueError ("Unsupported ResNet type: " ++ "resnet9" ++ ".\n")) ∧
    pyIn "resnet9" ("Unsupported ResNet type: " ++ "resnet9" ++ ".\n") = true :=
  resnet_unknown_variant_value_error "resnet9" (by decide) (by decide)

/-- **C3.** Any backbone string not containing `"resnet"` makes model
construction fail immediately with a `NotImplementedError`. -/
theorem non_resnet_not_implemented (s : String) (hres : pyIn "resnet" s = false) :
    BiSeNetv1.init s = Except.error PyError.notImplementedError := by
  unfold BiSeNetv1.init ContextPath.init
  rw [hres]
  rfl

/-- Witness for C3 at the concrete string `"vgg16"`. -/
theorem non_resnet_not_implemented_witness :
    BiSeNetv1.init "vgg16" = Except.error PyError.notImplementedError :=
  non_resnet_not_implemented "vgg16" (by decide)

/-! ## Shape-level model of the forward pass -/

/-- The shape `(n, c, h, w)` of a 4-dimensional tensor. -/
structure S4 where
  n : ℕ
  c : ℕ
  h : ℕ
  w : ℕ
  deriving DecidableEq, Repr

/-- PyTorch's output-size formula for convolution/pooling along one
dimension: `floor((h + 2p - k) / s) + 1`. -/
def convOutDim (h k s p : ℕ) : ℕ := (h + 2 * p - k) / s + 1

/-- Shape of a 2-d convolution with `ci` input channels, `co` output
channels, square kernel `k`, stride `s` and padding `p`; fails when the
input channel count mismatches or the padded input is smaller than the
kernel (PyTorch raises in both cases). -/
def convShape (ci co k s p : ℕ) (x : S4) : Option S4 :=
  if x.c = ci ∧ k ≤ x.h + 2 * p ∧ k ≤ x.w + 2 * p then
    some ⟨x.n, co, convOutDim x.h k s p, convOutDim x.w k s p⟩
  else none

/-- Modelled from the spec: `ConvBNAct` lives in `src/models/modules.py`,
which is not part of the provided source. Per the spec it is a
convolution + normalization + activation primitive in which the stride-2
variants halve the spatial resolution and the stride-1 variants preserve
it, i.e. a square-kernel convolution with "same" padding `k / 2`;
normalization and activation do not change the shape. -/
def convBNActShape (ci co k s : ℕ) : S4 → Option S4 :=
  convShape ci co k s (k / 2)

/-- Modelled from the spec: `conv1x1` (also from `src/models/modules.py`)
is a pointwise 1x1 convolution, stride 1, no padding. -/
def conv1x1Shape (ci co : ℕ) : S4 → Option S4 :=
  convShape ci co 1 1 0

/-- Shape of `nn.MaxPool2d(kernel, stride, padding)`: channel-preserving,
same spatial formula as convolution. -/
def maxpoolShape (k s p : ℕ) (x : S4) : Option S4 :=
  if k ≤ x.h + 2 * p ∧ k ≤ x.w + 2 * p then
    some ⟨x.n, x.c, convOutDim x.h k s p, convOutDim x.w k s p⟩
  else none

/-- Elementwise combination (`+`, `*`) of two tensors of identical shape. -/
def sameShape (a b : S4) : Option S4 := if a = b then some a else none

/-- `torch.cat(.., dim=1)`: channel counts add, all other dims must agree. -/
def catShape (a b : S4) : Option S4 :=
  if a.n = b.n ∧ a.h = b.h ∧ a.w = b.w then some ⟨a.n, a.c + b.c, a.h, a.w⟩ else none

/-- `F.interpolate(x, scale_factor=2, mode='bilinear', align_corners=True)`:
doubles both spatial dims; PyTorch rejects empty spatial input. -/
def upx2Shape (x : S4) : Option S4 :=
  if 1 ≤ x.h ∧ 1 ≤ x.w then some ⟨x.n, x.c, 2 * x.h, 2 * x.w⟩ else none

/-- `F.interpolate(x, size, mode='bilinear', align_corners=True)`:
sets the spatial dims to `size`. -/
def interpToShape (size : ℕ × ℕ) (x : S4) : Option S4 :=
  if 1 ≤ x.h ∧ 1 ≤ x.w ∧ 1 ≤ size.1 ∧ 1 ≤ size.2 then
    some ⟨x.n, x.c, size.1, size.2⟩
  else none

/-- `SpatialPath`: three `ConvBNAct(…, 3, 2)` blocks, `in_channels → 128`. -/
def spatialPathShape (in_channels out_channels : ℕ) (x : S4) : Option S4 := do
  let x ← convBNActShape in_channels out_channels 3 2 x
  let x ← convBNActShape out_channels out_channels 3 2 x
  convBNActShape out_channels out_channels 3 2 x

/-- Modelled from the spec: the torchvision ResNet backbone is external to
this repository. Its four residual stages output these channel counts
(`layer1..layer4`): basic-block nets (resnet18/34) give `(64, 128, 256,
512)`, bottleneck nets (resnet50/101/152) give `(256, 512, 1024, 2048)`. -/
def resnetLayerChannels (bt : String) : ℕ × ℕ × ℕ × ℕ :=
  if bt = "resnet18" ∨ bt = "resnet34" then (64, 128, 256, 512)
  else (256, 512, 1024, 2048)

/-- Shape semantics of `ResNet.forward`: 7x7 stride-2 stem, 3x3 stride-2
max-pool, four stages (stride 1, 2, 2, 2); returns the layer4 (1/32) and
layer3 (1/16) feature shapes, in that order, as the source does. -/
def resnetShape (bt : String) (x : S4) : Option (S4 × S4) := do
  let (c1, c2, c3, c4) := resnetLayerChannels bt
  let x ← convShape 3 64 7 2 3 x
  let x ← maxpoolShape 3 2 1 x
  let x ← convShape 64 c1 3 1 1 x
  let x ← convShape c1 c2 3 2 1 x
  let x3 ← convShape c2 c3 3 2 1 x
  let x4 ← convShape c3 c4 3 2 1 x3
  pure (x4, x3)

/-- Shape semantics of `AttentionRefinementModule.forward`: global average
pool to `1x1`, broadcast back, `ConvBNAct(channels, channels, 1)`, multiply
with the input elementwise; shape-preserving when the channel count
matches. -/
def armShape (channels : ℕ) (x : S4) : Option S4 := do
  let g ← convBNActShape channels channels 1 1 x
  sameShape x g

/-- Shape semantics of `ContextPath.forward` (source lines 59-72). -/
def contextPathShape (out_channels : ℕ) (bt : String) (x : S4) : Option S4 := do
  let (x32, x16) ← resnetShape bt x
  let a32 ← armShape (lookupChannels bt).2 x32
  let s32 ← conv1x1Shape (lookupChannels bt).2 out_channels a32
  let u32 ← upx2Shape s32
  let a16 ← armShape (lookupChannels bt).1 x16
  let s16 ← conv1x1Shape (lookupChannels bt).1 out_channels a16
  let m ← sameShape s16 u32
  upx2Shape m

/-- Shape semantics of `FeatureFusionModule.forward`: concat, `ConvBNAct(…,
3)` (stride 1), then the pooled gate (two 1x1 convolutions), elementwise
multiply and residual add. -/
def ffmShape (in_channels out_channels : ℕ) (xl xh : S4) : Option S4 := do
  let x ← catShape xl xh
  let x ← convBNActShape in_channels out_channels 3 1 x
  let g ← conv1x1Shape out_channels out_channels x
  let g ← conv1x1Shape out_channels out_channels g
  let m ← sameShape x g
  sameShape x m

/-- Shape semantics of `SegHead`: `ConvBNAct(in, 128, 3)` then
`conv1x1(128, num_class)`. -/
def segHeadShape (in_channels num_class : ℕ) (x : S4) : Option S4 := do
  let x ← convBNActShape in_channels 128 3 1 x
  conv1x1Shape 128 num_class x

/-- Shape semantics of `BiSeNetv1.forward` (source lines 23-31): record the
input spatial size, run both paths, fuse, classify, and upsample back to
the recorded size. -/
def bisenetForwardShape (num_class : ℕ) (bt : String) (x : S4) : Option S4 := do
  let size := (x.h, x.w)
  let xs ← spatialPathShape 3 128 x
  let xc ← contextPathShape 256 bt x
  let f ← ffmShape 384 256 xs xc
  let s ← segHeadShape 256 num_class f
  interpToShape size s

/-! ## Evaluation lemmas for the shape pipeline -/

theorem convShape_eval (ci co k s p B H W h' w' : ℕ)
    (hh : k ≤ H + 2 * p) (hw : k ≤ W + 2 * p)
    (eh : convOutDim H k s p = h') (ew : convOutDim W k s p = w') :
    convShape ci co k s p ⟨B, ci, H, W⟩ = some ⟨B, co, h', w'⟩ := by
  unfold convShape
  rw [if_pos ⟨rfl, hh, hw⟩, eh, ew]

theorem convBNActShape_eval (ci co k s B H W h' w' : ℕ)
    (hh : k ≤ H + 2 * (k / 2)) (hw : k ≤ W + 2 * (k / 2))
    (eh : convOutDim H k s (k / 2) = h') (ew : convOutDim W k s (k / 2) = w') :
    convBNActShape ci co k s ⟨B, ci, H, W⟩ = some ⟨B, co, h', w'⟩ := by
  unfold convBNActShape
  exact convShape_eval _ _ _ _ _ _ _ _ _ _ hh hw eh ew

theorem conv1x1Shape_eval (ci co B H W : ℕ) (hh : 0 < H) (hw : 0 < W) :
    conv1x1Shape ci co ⟨B, ci, H, W⟩ = some ⟨B, co, H, W⟩ := by
  unfold conv1x1Shape
  exact convShape_eval _ _ _ _ _ _ _ _ _ _ (by omega) (by omega)
    (by unfold convOutDim; omega) (by unfold convOutDim; omega)

theorem maxpoolShape_eval (k s p B C H W h' w' : ℕ)
    (hh : k ≤ H + 2 * p) (hw : k ≤ W + 2 * p)
    (eh : convOutDim H k s p = h') (ew : convOutDim W k s p = w') :
    maxpoolShape k s p ⟨B, C, H, W⟩ = some ⟨B, C, h', w'⟩ := by
  unfold maxpoolShape
  rw [if_pos ⟨hh, hw⟩, eh, ew]

theorem armShape_eval (C B H W : ℕ) (hh : 0 < H) (hw : 0 < W) :
    armShape C ⟨B, C, H, W⟩ = some ⟨B, C, H, W⟩ := by
  have g : convBNActShape C C 1 1 ⟨B, C, H, W⟩ = some ⟨B, C, H, W⟩ :=
    convBNActShape_eval _ _ _ _ _ _ _ _ _ (by omega) (by omega)
      (by unfold convOutDim; omega) (by unfold convOutDim; omega)
  unfold armShape
  simp [g, sameShape]

theorem resnetShape_eval (bt : String) (c1 c2 c3 c4 B a b : ℕ)
    (hch : resnetLayerChannels bt = (c1, c2, c3, c4)) (ha : 0 < a) (hb : 0 < b) :
    resnetShape bt ⟨B, 3, 32 * a, 32 * b⟩ = some (⟨B, c4, a, b⟩, ⟨B, c3, 2 * a, 2 * b⟩) := by
  have e1 : convShape 3 64 7 2 3 ⟨B, 3, 32 * a, 32 * b⟩ = some ⟨B, 64, 16 * a, 16 * b⟩ :=
    convShape_eval _ _ _ _ _ _ _ _ _ _ (by omega) (by omega)
      (by unfold convOutDim; omega) (by unfold convOutDim; omega)
  have e2 : maxpoolShape 3 2 1 ⟨B, 64, 16 * a, 16 * b⟩ = some ⟨B, 64, 8 * a, 8 * b⟩ :=
    maxpoolShape_eval _ _ _ _ _ _ _ _ _ (by omega) (by omega)
      (by unfold convOutDim; omega) (by unfold convOutDim; omega)
  have e3 : convShape 64 c1 3 1 1 ⟨B, 64, 8 * a, 8 * b⟩ = some ⟨B, c1, 8 * a, 8 * b⟩ :=
    convShape_eval _ _ _ _ _ _ _ _ _ _ (by omega) (by omega)
      (by unfold convOutDim; omega) (by unfold convOutDim; omega)
  have e4 : convShape c1 c2 3 2 1 ⟨B, c1, 8 * a, 8 * b⟩ = some ⟨B, c2, 4 * a, 4 * b⟩ :=
    convShape_eval _ _ _ _ _ _ _ _ _ _ (by omega) (by omega)
      (by unfold convOutDim; omega) (by unfold convOutDim; omega)
  have e5 : convShape c2 c3 3 2 1 ⟨B, c2, 4 * a, 4 * b⟩ = some ⟨B, c3, 2 * a, 2 * b⟩ :=
    convShape_eval _ _ _ _ _ _ _ _ _ _ (by omega) (by omega)
      (by unfold convOutDim; omega) (by unfold convOutDim; omega)
  have e6 : convShape c3 c4 3 2 1 ⟨B, c3, 2 * a, 2 * b⟩ = some ⟨B, c4, a, b⟩ :=
    convShape_eval _ _ _ _ _ _ _ _ _ _ (by omega) (by omega)
      (by unfold convOutDim; omega) (by unfold convOutDim; omega)
  unfold resnetShape
  rw [hch]
  simp [e1, e2, e3, e4, e5, e6]

theorem contextPathShape_eval (bt : String) (c1 c2 c3 c4 B a b : ℕ)
    (hch : resnetLayerChannels bt = (c1, c2, c3, c4))
    (hlk : lookupChannels bt = (c3, c4)) (ha : 0 < a) (hb : 0 < b) :
    contextPathShape 256 bt ⟨B, 3, 32 * a, 32 * b⟩ = some ⟨B, 256, 4 * a, 4 * b⟩ := by
  have a32 : armShape c4 ⟨B, c4, a, b⟩ = some ⟨B, c4, a, b⟩ := armShape_eval _ _ _ _ ha hb
  have s32 : conv1x1Shape c4 256 ⟨B, c4, a, b⟩ = some ⟨B, 256, a, b⟩ :=
    conv1x1Shape_eval _ _ _ _ _ ha hb
  have a16 : armShape c3 ⟨B, c3, 2 * a, 2 * b⟩ = some ⟨B, c3, 2 * a, 2 * b⟩ :=
    armShape_eval _ _ _ _ (by omega) (by omega)
  have s16 : conv1x1Shape c3 256 ⟨B, c3, 2 * a, 2 * b⟩ = some ⟨B, 256, 2 * a, 2 * b⟩ :=
    conv1x1Shape_eval _ _ _ _ _ (by omega) (by omega)
  unfold contextPathShape
  rw [resnetShape_eval bt c1 c2 c3 c4 B a b hch ha hb, hlk]
  have ha' : 1 ≤ a := ha
  have hb' : 1 ≤ b := hb
  have h2a : 1 ≤ 2 * a := by omega
  have h2b : 1 ≤ 2 * b := by omega
  have e4a : 2 * (2 * a) = 4 * a := by ring
  have e4b : 2 * (2 * b) = 4 * b := by ring
  simp [a32, s32, a16, s16, upx2Shape, sameShape, ha', hb', h2a, h2b, e4a, e4b]

theorem spatialPathShape_eval (B a b : ℕ) (ha : 0 < a) (hb : 0 < b) :
    spatialPathShape 3 128 ⟨B, 3, 32 * a, 32 * b⟩ = some ⟨B, 128, 4 * a, 4 * b⟩ := by
  have e1 : convBNActShape 3 128 3 2 ⟨B, 3, 32 * a, 32 * b⟩ = some ⟨B, 128, 16 * a, 16 * b⟩ :=
    convBNActShape_eval _ _ _ _ _ _ _ _ _ (by omega) (by omega)
      (by unfold convOutDim; omega) (by unfold convOutDim; omega)
  have e2 : convBNActShape 128 128 3 2 ⟨B, 128, 16 * a, 16 * b⟩ = some ⟨B, 128, 8 * a, 8 * b⟩ :=
    convBNActShape_eval _ _ _ _ _ _ _ _ _ (by omega) (by omega)
      (by unfold convOutDim; omega) (by unfold convOutDim; omega)
  have e3 : convBNActShape 128 128 3 2 ⟨B, 128, 8 * a, 8 * b⟩ = some ⟨B, 128, 4 * a, 4 * b⟩ :=
    convBNActShape_eval _ _ _ _ _ _ _ _ _ (by omega) (by omega)
      (by unfold convOutDim; omega) (by unfold convOutDim; omega)
  unfold spatialPathShape
  simp [e1, e2, e3]

theorem ffmShape_eval (B H W : ℕ) (hh : 0 < H) (hw : 0 < W) :
    ffmShape 384 256 ⟨B, 128, H, W⟩ ⟨B, 256, H, W⟩ = some ⟨B, 256, H, W⟩ := by
  have e1 : convBNActShape 384 256 3 1 ⟨B, 384, H, W⟩ = some ⟨B, 256, H, W⟩ :=
    convBNActShape_eval _ _ _ _ _ _ _ _ _ (by omega) (by omega)
      (by unfold convOutDim; omega) (by unfold convOutDim; omega)
  have e2 : conv1x1Shape 256 256 ⟨B, 256, H, W⟩ = some ⟨B, 256, H, W⟩ :=
    conv1x1Shape_eval _ _ _ _ _ hh hw
  unfold ffmShape
  simp [catShape, e1, e2, sameShape]

theorem segHeadShape_eval (nc B H W : ℕ) (hh : 0 < H) (hw : 0 < W) :
    segHeadShape 256 nc ⟨B, 256, H, W⟩ = some ⟨B, nc, H, W⟩ := by
  have e1 : convBNActShape 256 128 3 1 ⟨B, 256, H, W⟩ = some ⟨B, 128, H, W⟩ :=
    convBNActShape_eval _ _ _ _ _ _ _ _ _ (by omega) (by omega)
      (by unfold convOutDim; omega) (by unfold convOutDim; omega)
  unfold segHeadShape
  simp [e1, conv1x1Shape_eval _ _ _ _ _ hh hw]

/-- For every supported variant, the torchvision stage channels, the channel
pair selected by `ContextPath.__init__`'s substring lookup (which matches the
last two stage channels), and the fact that the name contains `"resnet"`. -/
theorem hub_channels (bt : String) (hbt : bt ∈ resnet_hub) :
    ∃ c1 c2 c3 c4, resnetLayerChannels bt = (c1, c2, c3, c4) ∧
      lookupChannels bt = (c3, c4) ∧ pyIn "resnet" bt = true := by
  fin_cases hbt
  · exact ⟨64, 128, 256, 512, by decide, by decide, by decide⟩
  · exact ⟨64, 128, 256, 512, by decide, by decide, by decide⟩
  · exact ⟨256, 512, 1024, 2048, by decide, by decide, by decide⟩
  · exact ⟨256, 512, 1024, 2048, by decide, by decide, by decide⟩
  · exact ⟨256, 512, 1024, 2048, by decide, by decide, by decide⟩

/-- **C1.** For every supported backbone and every input shape `(B, 3, H, W)`
with `H` and `W` positive and divisible by 32, `BiSeNetv1.forward` produces a
tensor of shape `(B, num_classes, H, W)`: spatial size exactly the input's,
channel count exactly the configured class count. -/
theorem bisenet_forward_output_shape (bt : String) (hbt : bt ∈ resnet_hub)
    (B nc H W : ℕ) (hH : 32 ∣ H) (hW : 32 ∣ W) (h0H : 0 < H) (h0W : 0 < W) :
    bisenetForwardShape nc bt ⟨B, 3, H, W⟩ = some ⟨B, nc, H, W⟩ := by
  obtain ⟨a, rfl⟩ := hH
  obtain ⟨b, rfl⟩ := hW
  have ha : 0 < a := by omega
  have hb : 0 < b := by omega
  obtain ⟨c1, c2, c3, c4, hch, hlk, -⟩ := hub_channels bt hbt
  have sp := spatialPathShape_eval B a b ha hb
  have cp := contextPathShape_eval bt c1 c2 c3 c4 B a b hch hlk ha hb
  have ff := ffmShape_eval B (4 * a) (4 * b) (by omega) (by omega)
  have sg := segHeadShape_eval nc B (4 * a) (4 * b) (by omega) (by omega)
  have h4a : 1 ≤ 4 * a := by omega
  have h4b : 1 ≤ 4 * b := by omega
  have h32a : 1 ≤ 32 * a := by omega
  have h32b : 1 ≤ 32 * b := by omega
  unfold bisenetForwardShape
  simp [sp, cp, ff, sg, interpToShape, h4a, h4b, h32a, h32b]

/-- Witness for C1: `resnet18`, batch 1, 19 classes, a 32x32 input. -/
theorem bisenet_forward_output_shape_witness :
    bisenetForwardShape 19 "resnet18" ⟨1, 3, 32, 32⟩ = some ⟨1, 19, 32, 32⟩ :=
  bisenet_forward_output_shape "resnet18" (by decide) 1 19 32 32
    (by decide) (by decide) (by decide) (by decide)

/-- **C4.** For every supported backbone variant: construction selects the
channel pair `(256, 512)` when the name contains `"18"` or `"34"` and
`(1024, 2048)` otherwise, that pair is consistent with the backbone's actual
stage channels (the `ContextPath` shape pipeline succeeds), and
`ContextPath`'s output channel count is the configured 256 on every valid
input. -/
theorem context_path_channel_invariant (bt : String) (hbt : bt ∈ resnet_hub)
    (B a b : ℕ) (ha : 0 < a) (hb : 0 < b) :
    BiSeNetv1.init bt = Except.ok (lookupChannels bt) ∧
    lookupChannels bt =
      (if pyIn "18" bt || pyIn "34" bt then (256, 512) else (1024, 2048)) ∧
    contextPathShape 256 bt ⟨B, 3, 32 * a, 32 * b⟩ = some ⟨B, 256, 4 * a, 4 * b⟩ := by
  obtain ⟨c1, c2, c3, c4, hch, hlk, hres⟩ := hub_channels bt hbt
  refine ⟨?_, rfl, contextPathShape_eval bt c1 c2 c3 c4 B a b hch hlk ha hb⟩
  unfold BiSeNetv1.init ContextPath.init ResNet.init
  rw [hres, if_pos hbt]
  rfl

/-- Witness for C4: `resnet50` at a 32x32 input. -/
theorem context_path_channel_invariant_witness :
    BiSeNetv1.init "resnet50" = Except.ok (lookupChannels "resnet50") ∧
    lookupChannels "resnet50" =
      (if pyIn "18" "resnet50" || pyIn "34" "resnet50" then (256, 512) else (1024, 2048)) ∧
    contextPathShape 256 "resnet50" ⟨1, 3, 32 * 1, 32 * 1⟩ = some ⟨1, 256, 4 * 1, 4 * 1⟩ :=
  context_path_channel_invariant "resnet50" (by decide) 1 1 1 (by decide) (by decide)

/-! ## Value-level model: tensors as rational-valued indexed functions

Learned weights are universally quantified parameters; the operations the
claims are about (global average pooling, broadcasting, 1x1 convolution,
channel concatenation, elementwise arithmetic) are concrete. -/

/-- A 4-d tensor of rationals, indexed batch, channel, height, width. -/
abbrev Tensor (n c h w : ℕ) : Type := Fin n → Fin c → Fin h → Fin w → ℚ

/-- `nn.AdaptiveAvgPool2d(1)`: the spatial mean of each channel. -/
def gap {n c h w : ℕ} (x : Tensor n c h w) : Fin n → Fin c → ℚ :=
  fun i j => (∑ p, ∑ q, x i j p q) / ((h : ℚ) * (w : ℚ))

/-- `t.expand_as(x)` for a `(n, c, 1, 1)` tensor `t`: broadcast one value per
batch element and channel over all spatial positions. -/
def expandT {n c h w : ℕ} (v : Fin n → Fin c → ℚ) : Tensor n c h w :=
  fun i j _ _ => v i j

/-- `torch.cat([x, y], dim=1)`: the first `c1` channels come from `x`, the
remaining `c2` from `y`. -/
def tcat {n c1 c2 h w : ℕ} (x : Tensor n c1 h w) (y : Tensor n c2 h w) :
    Tensor n (c1 + c2) h w :=
  fun i j p q =>
    if hj : (j : ℕ) < c1 then x i ⟨j, hj⟩ p q
    else y i ⟨(j : ℕ) - c1, by have := j.isLt; omega⟩ p q

/-- A 1x1 convolution: at every spatial position, an affine map of the
channel vector at that position. -/
def conv1x1T {n ci co h w : ℕ} (wt : Fin co → Fin ci → ℚ) (bias : Fin co → ℚ)
    (x : Tensor n ci h w) : Tensor n co h w :=
  fun i o p q => bias o + ∑ k, wt o k * x i k p q

/-- Inference-mode batch normalization: a per-channel affine map. -/
def bnAffine {n c h w : ℕ} (gam bet : Fin c → ℚ) (x : Tensor n c h w) :
    Tensor n c h w :=
  fun i j p q => gam j * x i j p q + bet j

/-- A pointwise activation applied to every entry. -/
def pointwiseT {n c h w : ℕ} (f : ℚ → ℚ) (x : Tensor n c h w) : Tensor n c h w :=
  fun i j p q => f (x i j p q)

/-- `nn.ReLU()` on rationals. -/
def reluQ (t : ℚ) : ℚ := max t 0

/-- The parameters of `ConvBNAct(channels, channels, 1, act_type=...)` as
used inside `AttentionRefinementModule`: 1x1 convolution weights and bias,
normalization scale and shift, and the pointwise activation (`sigmoid` in
the source, kept as a function parameter since real sigmoid values are
transcendental). -/
structure ARMParams (c : ℕ) where
  wt : Fin c → Fin c → ℚ
  bias : Fin c → ℚ
  gam : Fin c → ℚ
  bet : Fin c → ℚ
  act : ℚ → ℚ

/-- Modelled from the spec: the kernel-1 `ConvBNAct` (from the missing
`src/models/modules.py`) is a 1x1 convolution followed by normalization and
a pointwise activation; none of these mixes spatial positions. -/
def convBNAct1 {n c h w : ℕ} (P : ARMParams c) (x : Tensor n c h w) :
    Tensor n c h w :=
  pointwiseT P.act (bnAffine P.gam P.bet (conv1x1T P.wt P.bias x))

/-- The attention gate of `AttentionRefinementModule.forward` (source lines
82-84): pool, broadcast, kernel-1 `ConvBNAct`. -/
def armGate {n c h w : ℕ} (P : ARMParams c) (x : Tensor n c h w) :
    Tensor n c h w :=
  convBNAct1 P (expandT (gap x))

/-- `AttentionRefinementModule.forward` (source lines 81-87): elementwise
product of the input with the gate. -/
def armForward {n c h w : ℕ} (P : ARMParams c) (x : Tensor n c h w) :
    Tensor n c h w :=
  x * armGate P x

/-- The parameters of `FeatureFusionModule`'s `conv2` gate network:
`conv1x1 → ReLU → conv1x1 → Sigmoid` (source lines 95-100); the final
sigmoid is the function parameter `sig`. -/
structure FFMGate (c : ℕ) where
  w1 : Fin c → Fin c → ℚ
  b1 : Fin c → ℚ
  w2 : Fin c → Fin c → ℚ
  b2 : Fin c → ℚ
  sig : ℚ → ℚ

/-- The `conv2` gate network of `FeatureFusionModule`. -/
def ffmGateNet {n c h w : ℕ} (G : FFMGate c) (x : Tensor n c h w) :
    Tensor n c h w :=
  pointwiseT G.sig (conv1x1T G.w2 G.b2 (pointwiseT reluQ (conv1x1T G.w1 G.b1 x)))

/-- `FeatureFusionModule.forward` (source lines 102-113): concatenate along
channels, apply the 3x3 `ConvBNAct` (an abstract spatial-size-preserving
function parameter, since its learned kernel mixes positions), then gate:
pool, broadcast, `conv2`, multiply, and residual add. -/
def ffmForward {n c1 c2 co h w : ℕ}
    (conv1 : Tensor n (c1 + c2) h w → Tensor n co h w) (G : FFMGate co)
    (x_low : Tensor n c1 h w) (x_high : Tensor n c2 h w) : Tensor n co h w :=
  let x := conv1 (tcat x_low x_high)
  let x_pool := expandT (gap x)
  let x_pool := ffmGateNet G x_pool
  let x_pool := x * x_pool
  x + x_pool

/-- `ContextPath.forward` (source lines 59-72), written as the source's
sequence of statements. The backbone and the two bilinear 2x upsamples are
abstract function parameters (their kernels/weights mix spatial positions);
pooling, broadcast addition, ARM gating and the 1x1 projections are
concrete. The backbone returns the 1/32 and 1/16 feature maps, in that
order, the 1/16 map having twice the spatial size of the 1/32 map. -/
def contextPathForward {nb H W c32 c16 co h w : ℕ}
    (backbone : Tensor nb 3 H W → Tensor nb c32 h w × Tensor nb c16 (2 * h) (2 * w))
    (P32 : ARMParams c32) (P16 : ARMParams c16)
    (wt32 : Fin co → Fin c32 → ℚ) (b32 : Fin co → ℚ)
    (wt16 : Fin co → Fin c16 → ℚ) (b16 : Fin co → ℚ)
    (up32 : Tensor nb co h w → Tensor nb co (2 * h) (2 * w))
    (up16 : Tensor nb co (2 * h) (2 * w) → Tensor nb co (2 * (2 * h)) (2 * (2 * w)))
    (x : Tensor nb 3 H W) : Tensor nb co (2 * (2 * h)) (2 * (2 * w)) :=
  let bb := backbone x
  let x_32 := bb.1
  let x_16 := bb.2
  let x_32_avg := gap x_32
  let x_32a := armForward P32 x_32
  let x_32b := x_32a + expandT x_32_avg
  let x_32c := conv1x1T wt32 b32 x_32b
  let x_32d := up32 x_32c
  let x_16a := armForward P16 x_16
  let x_16b := conv1x1T wt16 b16 x_16a
  let x_16c := x_16b + x_32d
  up16 x_16c

/-- `BiSeNetv1.forward` (source lines 23-31) at the value level:
`SpatialPath`, `ContextPath`, `SegHead` and the final interpolation are
abstract function parameters; the FFM wiring is `ffmForward`. The spatial
feature is passed to the FFM as the first argument, the context feature as
the second, exactly as the source does. -/
def bisenetForwardVal {nb H W h w nc : ℕ}
    (spatial_path : Tensor nb 3 H W → Tensor nb 128 h w)
    (context_path : Tensor nb 3 H W → Tensor nb 256 h w)
    (ffm_conv1 : Tensor nb (128 + 256) h w → Tensor nb 256 h w)
    (G : FFMGate 256)
    (seg_head : Tensor nb 256 h w → Tensor nb nc h w)
    (up_final : Tensor nb nc h w → Tensor nb nc H W)
    (x : Tensor nb 3 H W) : Tensor nb nc H W :=
  let x_s := spatial_path x
  let x_c := context_path x
  let xf := ffmForward ffm_conv1 G x_s x_c
  let xh := seg_head xf
  up_final xh

/-- `BiSeNetv1.forward` with the two path evaluations transposed:
`ContextPath` first, then `SpatialPath`. -/
def bisenetForwardValCtxFirst {nb H W h w nc : ℕ}
    (spatial_path : Tensor nb 3 H W → Tensor nb 128 h w)
    (context_path : Tensor nb 3 H W → Tensor nb 256 h w)
    (ffm_conv1 : Tensor nb (128 + 256) h w → Tensor nb 256 h w)
    (G : FFMGate 256)
    (seg_head : Tensor nb 256 h w → Tensor nb nc h w)
    (up_final : Tensor nb nc h w → Tensor nb nc H W)
    (x : Tensor nb 3 H W) : Tensor nb nc H W :=
  let x_c := context_path x
  let x_s := spatial_path x
  let xf := ffmForward ffm_conv1 G x_s x_c
  let xh := seg_head xf
  up_final xh

/-! ## Claims C5-C10: value-level properties -/

/-- The all-ones tensor. -/
def onesT (n c h w : ℕ) : Tensor n c h w := fun _ _ _ _ => 1

/-- The all-zeros tensor. -/
def zerosT (n c h w : ℕ) : Tensor n c h w := fun _ _ _ _ => 0

/-- The gate tensor computed inside `FeatureFusionModule.forward` from the
post-concatenation convolution result. -/
def ffmGateOf {n c h w : ℕ} (G : FFMGate c) (x : Tensor n c h w) :
    Tensor n c h w :=
  ffmGateNet G (expandT (gap x))

/-- **C5.** `FeatureFusionModule.forward` returns `x + x * gate`, where `x`
is the 3x3 convolution of the channel concatenation of the two inputs and
`gate` is the pooled attention gate of that `x`; consequently, whenever the
gate is the all-zero tensor, the output is exactly `x`, unchanged. -/
theorem ffm_residual_of_zero_gate {n c1 c2 co h w : ℕ}
    (conv1 : Tensor n (c1 + c2) h w → Tensor n co h w) (G : FFMGate co)
    (x_low : Tensor n c1 h w) (x_high : Tensor n c2 h w) :
    ffmForward conv1 G x_low x_high =
      conv1 (tcat x_low x_high) +
        conv1 (tcat x_low x_high) * ffmGateOf G (conv1 (tcat x_low x_high)) ∧
    (ffmGateOf G (conv1 (tcat x_low x_high)) = 0 →
      ffmForward conv1 G x_low x_high = conv1 (tcat x_low x_high)) := by
  refine ⟨rfl, fun h0 => ?_⟩
  show conv1 (tcat x_low x_high) +
      conv1 (tcat x_low x_high) * ffmGateOf G (conv1 (tcat x_low x_high)) =
    conv1 (tcat x_low x_high)
  rw [h0, mul_zero, add_zero]

/-- Witness for C5: one batch, one channel per input, 1x1 spatial size, a
constant-one post-concat convolution, and a gate network whose final
activation is constantly zero, so the output equals the convolution
result. -/
theorem ffm_residual_of_zero_gate_witness :
    ffmForward (fun _ => onesT 1 1 1 1)
        ⟨fun _ _ => 0, fun _ => 0, fun _ _ => 0, fun _ => 0, fun _ => 0⟩
        (zerosT 1 1 1 1) (zerosT 1 1 1 1) =
      (fun _ => onesT 1 1 1 1) (tcat (zerosT 1 1 1 1) (zerosT 1 1 1 1)) :=
  (ffm_residual_of_zero_gate (fun _ => onesT 1 1 1 1)
      ⟨fun _ _ => 0, fun _ => 0, fun _ _ => 0, fun _ => 0, fun _ => 0⟩
      (zerosT 1 1 1 1) (zerosT 1 1 1 1)).2 (by funext i j p q; rfl)

/-- **C6.** `ContextPath.forward` computes exactly: the global average of
the raw (pre-ARM) 1/32 feature is broadcast-added into the ARM-gated 1/32
feature, the sum is 1x1-projected and 2x-upsampled; the ARM-gated,
1x1-projected 1/16 feature then receives that upsampled result by addition,
and the sum is 2x-upsampled to give the output. -/
theorem context_path_dataflow {nb H W c32 c16 co h w : ℕ}
    (backbone : Tensor nb 3 H W → Tensor nb c32 h w × Tensor nb c16 (2 * h) (2 * w))
    (P32 : ARMParams c32) (P16 : ARMParams c16)
    (wt32 : Fin co → Fin c32 → ℚ) (b32 : Fin co → ℚ)
    (wt16 : Fin co → Fin c16 → ℚ) (b16 : Fin co → ℚ)
    (up32 : Tensor nb co h w → Tensor nb co (2 * h) (2 * w))
    (up16 : Tensor nb co (2 * h) (2 * w) → Tensor nb co (2 * (2 * h)) (2 * (2 * w)))
    (x : Tensor nb 3 H W) :
    contextPathForward backbone P32 P16 wt32 b32 wt16 b16 up32 up16 x =
      up16 (conv1x1T wt16 b16 (armForward P16 (backbone x).2) +
        up32 (conv1x1T wt32 b32
          (armForward P32 (backbone x).1 + expandT (gap (backbone x).1)))) :=
  rfl

/-- **C7.** The ARM output is the elementwise product of the input with a
gate whose activation is applied last; when the activation maps into the
open interval `(0, 1)` (as the source's sigmoid does), every gate entry
lies strictly in `(0, 1)`, and on the all-ones input the output is
elementwise at most the input. -/
theorem arm_gate_range {n c h w : ℕ} (P : ARMParams c)
    (hact : ∀ t, 0 < P.act t ∧ P.act t < 1) (x : Tensor n c h w) :
    (∀ i j p q, 0 < armGate P x i j p q ∧ armGate P x i j p q < 1) ∧
    armForward P x = x * armGate P x ∧
    (∀ i j p q,
      armForward P (onesT n c h w) i j p q ≤ onesT n c h w i j p q) := by
  refine ⟨fun i j p q => hact _, rfl, fun i j p q => ?_⟩
  show (1 : ℚ) * armGate P (onesT n c h w) i j p q ≤ 1
  rw [one_mul]
  exact (hact _).2.le

/-- Witness for C7: one batch/channel/pixel, activation constantly 1/2. -/
theorem arm_gate_range_witness :
    (∀ i j p q,
      0 < armGate (⟨fun _ _ => 0, fun _ => 0, fun _ => 0, fun _ => 0,
          fun _ => 1 / 2⟩ : ARMParams 1) (onesT 1 1 1 1) i j p q ∧
      armGate (⟨fun _ _ => 0, fun _ => 0, fun _ => 0, fun _ => 0,
          fun _ => 1 / 2⟩ : ARMParams 1) (onesT 1 1 1 1) i j p q < 1) ∧
    armForward (⟨fun _ _ => 0, fun _ => 0, fun _ => 0, fun _ => 0,
        fun _ => 1 / 2⟩ : ARMParams 1) (onesT 1 1 1 1) =
      onesT 1 1 1 1 *
        armGate (⟨fun _ _ => 0, fun _ => 0, fun _ => 0, fun _ => 0,
            fun _ => 1 / 2⟩ : ARMParams 1) (onesT 1 1 1 1) ∧
    (∀ i j p q,
      armForward (⟨fun _ _ => 0, fun _ => 0, fun _ => 0, fun _ => 0,
          fun _ => 1 / 2⟩ : ARMParams 1) (onesT 1 1 1 1) i j p q ≤
        onesT 1 1 1 1 i j p q) :=
  arm_gate_range _ (fun t => ⟨by norm_num, by norm_num⟩) (onesT 1 1 1 1)

/-- **C8.** The two branch computations of `BiSeNetv1.forward` are
order-independent: evaluating `ContextPath` before `SpatialPath` gives the
same output on every input, for all parameters. -/
theorem paths_order_independent {nb H W h w nc : ℕ}
    (spatial_path : Tensor nb 3 H W → Tensor nb 128 h w)
    (context_path : Tensor nb 3 H W → Tensor nb 256 h w)
    (ffm_conv1 : Tensor nb (128 + 256) h w → Tensor nb 256 h w)
    (G : FFMGate 256)
    (seg_head : Tensor nb 256 h w → Tensor nb nc h w)
    (up_final : Tensor nb nc h w → Tensor nb nc H W)
    (x : Tensor nb 3 H W) :
    bisenetForwardValCtxFirst spatial_path context_path ffm_conv1 G seg_head up_final x =
      bisenetForwardVal spatial_path context_path ffm_conv1 G seg_head up_final x :=
  rfl

theorem tcat_low {n c1 c2 h w : ℕ} (x : Tensor n c1 h w) (y : Tensor n c2 h w)
    (i : Fin n) (j : Fin c1) (p : Fin h) (q : Fin w) :
    tcat x y i (Fin.castAdd c2 j) p q = x i j p q := by
  have hv : ((Fin.castAdd c2 j : Fin (c1 + c2)) : ℕ) = (j : ℕ) := rfl
  simp [tcat, hv]

theorem tcat_high {n c1 c2 h w : ℕ} (x : Tensor n c1 h w) (y : Tensor n c2 h w)
    (i : Fin n) (j : Fin c2) (p : Fin h) (q : Fin w) :
    tcat x y i (Fin.natAdd c1 j) p q = y i j p q := by
  have hv : ((Fin.natAdd c1 j : Fin (c1 + c2)) : ℕ) = c1 + (j : ℕ) := rfl
  simp [tcat, hv]

/-- **C9.** `BiSeNetv1.forward` hands the FFM the `SpatialPath` output as
`x_low` (first argument) and the `ContextPath` output as `x_high` (second),
and the FFM's channel concatenation keeps that order: channels `0..127` of
the concatenated tensor read from the spatial feature and channels
`128..383` from the context feature. -/
theorem ffm_concat_spatial_first {nb H W h w nc : ℕ}
    (spatial_path : Tensor nb 3 H W → Tensor nb 128 h w)
    (context_path : Tensor nb 3 H W → Tensor nb 256 h w)
    (ffm_conv1 : Tensor nb (128 + 256) h w → Tensor nb 256 h w)
    (G : FFMGate 256)
    (seg_head : Tensor nb 256 h w → Tensor nb nc h w)
    (up_final : Tensor nb nc h w → Tensor nb nc H W)
    (x : Tensor nb 3 H W) :
    bisenetForwardVal spatial_path context_path ffm_conv1 G seg_head up_final x =
      up_final (seg_head (ffmForward ffm_conv1 G (spatial_path x) (context_path x))) ∧
    ffmForward ffm_conv1 G (spatial_path x) (context_path x) =
      ffm_conv1 (tcat (spatial_path x) (context_path x)) +
        ffm_conv1 (tcat (spatial_path x) (context_path x)) *
          ffmGateOf G (ffm_conv1 (tcat (spatial_path x) (context_path x))) ∧
    (∀ i (j : Fin 128) p q,
      tcat (spatial_path x) (context_path x) i (Fin.castAdd 256 j) p q =
        spatial_path x i j p q) ∧
    (∀ i (j : Fin 256) p q,
      tcat (spatial_path x) (context_path x) i (Fin.natAdd 128 j) p q =
        context_path x i j p q) :=
  ⟨rfl, rfl,
    fun i j p q => tcat_low (spatial_path x) (context_path x) i j p q,
    fun i j p q => tcat_high (spatial_path x) (context_path x) i j p q⟩

/-- A tensor taking one value per batch element and channel: the same value
at every spatial position. -/
def SpatiallyConst {n c h w : ℕ} (x : Tensor n c h w) : Prop :=
  ∀ i j p q p' q', x i j p q = x i j p' q'

theorem spatiallyConst_expandT {n c h w : ℕ} (v : Fin n → Fin c → ℚ) :
    SpatiallyConst (expandT v : Tensor n c h w) :=
  fun _ _ _ _ _ _ => rfl

theorem spatiallyConst_conv1x1T {n ci co h w : ℕ}
    (wt : Fin co → Fin ci → ℚ) (bias : Fin co → ℚ) {x : Tensor n ci h w}
    (hx : SpatiallyConst x) : SpatiallyConst (conv1x1T wt bias x) := by
  intro i o p q p' q'
  unfold conv1x1T
  congr 1
  exact Finset.sum_congr rfl fun k _ => by rw [hx i k p q p' q']

theorem spatiallyConst_bnAffine {n c h w : ℕ} (gam bet : Fin c → ℚ)
    {x : Tensor n c h w} (hx : SpatiallyConst x) :
    SpatiallyConst (bnAffine gam bet x) := by
  intro i j p q p' q'
  unfold bnAffine
  rw [hx i j p q p' q']

theorem spatiallyConst_pointwiseT {n c h w : ℕ} (f : ℚ → ℚ)
    {x : Tensor n c h w} (hx : SpatiallyConst x) :
    SpatiallyConst (pointwiseT f x) := by
  intro i j p q p' q'
  unfold pointwiseT
  rw [hx i j p q p' q']

/-- **C10.** In both the ARM and the FFM, the attention gate is spatially
constant: it is built by 1x1 convolutions, per-channel affine maps and
pointwise activations out of the broadcast global-average-pool result, so
within one batch element and channel it has the same value at every spatial
position, and the forward product multiplies all pixels of a channel by one
per-channel scalar. -/
theorem attention_gates_spatially_constant (n ca cf h w : ℕ) :
    (∀ (P : ARMParams ca) (x : Tensor n ca h w),
      armForward P x = x * armGate P x ∧ SpatiallyConst (armGate P x)) ∧
    (∀ (G : FFMGate cf) (x : Tensor n cf h w), SpatiallyConst (ffmGateOf G x)) := by
  constructor
  · intro P x
    refine ⟨rfl, ?_⟩
    unfold armGate convBNAct1
    exact spatiallyConst_pointwiseT _ (spatiallyConst_bnAffine _ _
      (spatiallyConst_conv1x1T _ _ (spatiallyConst_expandT _)))
  · intro G x
    unfold ffmGateOf ffmGateNet
    exact spatiallyConst_pointwiseT _ (spatiallyConst_conv1x1T _ _
      (spatiallyConst_pointwiseT _ (spatiallyConst_conv1x1T _ _
        (spatiallyConst_expandT _))))
